import Mathlib

/-!
Verification of the RAGBot chat-bot backend (Python sources under backend/app/)
against its natural-language specification.

The Python services are shallowly embedded: every definition below mirrors a
concrete function of the source, with Python `datetime` values modelled as `Nat`
timestamps, uuid generation modelled as explicitly passed fresh identifiers,
storage-backend I/O failure modelled as an explicit Boolean outcome parameter,
and conversation files (JSONStorageBackend) modelled as an association list from
session id to conversation.  Source locations are cited next to each definition.
-/

namespace RAGBot

/-- Message roles, from `Message.role ∈ {"user", "assistant", "system"}`
(backend/app/models/chat.py). -/
inductive Role where
  | user
  | assistant
  | system
deriving DecidableEq, Repr

/-- `Message` (backend/app/models/chat.py), field order as in the pydantic model.
`id` is the uuid string, `timestamp` a Nat-modelled datetime, `metadata` a
string-valued map. -/
structure Message where
  id : String
  content : String
  role : Role
  timestamp : Nat
  metadata : List (String × String)
  sessionId : Option String
deriving DecidableEq, Repr

/-- `Conversation` (backend/app/models/chat.py), field order as in the pydantic
model. -/
structure Conversation where
  sessionId : String
  messages : List Message
  createdAt : Nat
  updatedAt : Nat
  metadata : List (String × String)
  title : Option String
deriving DecidableEq, Repr

/-- Python slice-bound normalisation: a negative index counts from the end of
the sequence, and the result is clamped into `[0, len]`. -/
def pySliceIdx (len : Nat) (i : Int) : Nat :=
  let j : Int := if i < 0 then i + len else i
  if j < 0 then 0 else min j.toNat len

/-- Python `l[s:e]` (step 1) on lists. -/
def pySlice (l : List α) (s e : Int) : List α :=
  (l.take (pySliceIdx l.length e)).drop (pySliceIdx l.length s)

/-- Python `l[-n:]` with a non-negative `n`.  Note the `-0` quirk: for `n = 0`
the slice is `l[0:]`, i.e. the whole list, not the empty list. -/
def pyTailSlice (l : List α) (n : Nat) : List α :=
  l.drop (pySliceIdx l.length (-(n : Int)))

/-- The JSONStorageBackend data directory (backend/app/services/memory_service.py):
one record per session id, modelled as an association list. -/
abbrev Store := List (String × Conversation)

/-- Look up a session file (`JSONStorageBackend.load_conversation`): `none` when
the file does not exist. -/
def Store.load : Store → String → Option Conversation
  | [], _ => none
  | (k, c) :: rest, sid => if k = sid then some c else Store.load rest sid

/-- Write a session file (`JSONStorageBackend.save_conversation`): overwrites
the record keyed by the conversation's session id. -/
def Store.save (s : Store) (c : Conversation) : Store :=
  (c.sessionId, c) :: s.filter (fun p => p.1 ≠ c.sessionId)

/-- Remove a session file (`file.unlink()` inside
`JSONStorageBackend.delete_conversation`). -/
def Store.eraseSession (s : Store) (sid : String) : Store :=
  s.filter (fun p => p.1 ≠ sid)

/-- `Conversation.add_message` (backend/app/models/chat.py lines 40-44): sets the
message's session id to the conversation's, appends, bumps `updated_at`. -/
def Conversation.add_message (c : Conversation) (m : Message) (now : Nat) : Conversation :=
  { c with messages := c.messages ++ [{ m with sessionId := some c.sessionId }],
           updatedAt := now }

/-- `Conversation(session_id=session_id)` with pydantic defaults
(backend/app/services/memory_service.py line 93). -/
def newConversation (sid : String) (now : Nat) : Conversation :=
  { sessionId := sid, messages := [], createdAt := now, updatedAt := now,
    metadata := [], title := none }

/-- `MemoryService.add_message`, JSON-backend path
(backend/app/services/memory_service.py lines 82-100).  `saveOk` models whether
the backend write (`JSONStorageBackend.save_conversation`) succeeds; on backend
failure `MemoryService.save_conversation` catches the exception, logs it and
returns `False`, leaving the store unchanged — `add_message` itself therefore
never raises: its whole body is wrapped in `try/except` returning `False`. -/
def MemoryService.add_message (maxHistory : Nat) (saveOk : Bool) (store : Store)
    (sid : String) (m : Message) (now : Nat) : Store × Bool :=
  let conv0 := (store.load sid).getD (newConversation sid now)
  let conv1 := conv0.add_message m now
  let conv2 := if conv1.messages.length > maxHistory
               then { conv1 with messages := pyTailSlice conv1.messages maxHistory }
               else conv1
  if saveOk then (store.save conv2, true) else (store, false)

/-- `MemoryService.get_conversation_history`
(backend/app/services/memory_service.py lines 102-118):
`start_idx = max(0, len - offset - limit)`,
`end_idx = len - offset if offset > 0 else len`, then `messages[start:end]`.
A missing conversation yields `[]`. -/
def MemoryService.get_conversation_history (store : Store) (sid : String)
    (limit offset : Nat) : List Message :=
  match store.load sid with
  | none => []
  | some c =>
    let len := c.messages.length
    pySlice c.messages (max 0 ((len : Int) - offset - limit))
      (if 0 < offset then (len : Int) - offset else (len : Int))

/-- `JSONStorageBackend.delete_conversation`
(backend/app/services/memory_service.py lines 450-453): unlink only if the file
exists; a missing file is a silent no-op. -/
def JSONStorageBackend.delete_conversation (store : Store) (sid : String) : Store :=
  if (store.load sid).isSome then store.eraseSession sid else store

/-- `MemoryService.delete_conversation`
(backend/app/services/memory_service.py lines 133-145): returns `True` unless
the backend raised (`backendOk = false` models an I/O error), in which case the
exception is logged and `False` is returned. -/
def MemoryService.delete_conversation (backendOk : Bool) (store : Store)
    (sid : String) : Store × Bool :=
  if backendOk then (JSONStorageBackend.delete_conversation store sid, true)
  else (store, false)

/-- JSON value tree.  Pydantic's `model_dump_json` / `parse_raw` (third-party
library code, not part of this repository) are modelled as the structural JSON
encoding of the declared model fields; the rendering of this tree to a byte
string and back is the library's faithfully-inverse concern. -/
inductive Json where
  | null
  | str (s : String)
  | num (n : Nat)
  | arr (items : List Json)
  | obj (fields : List (String × Json))

def Role.toStr : Role → String
  | .user => "user"
  | .assistant => "assistant"
  | .system => "system"

def Role.fromStr? (s : String) : Option Role :=
  if s = "user" then some .user
  else if s = "assistant" then some .assistant
  else if s = "system" then some .system
  else none

def optStrToJson : Option String → Json
  | none => .null
  | some s => .str s

def optStrFromJson? : Json → Option (Option String)
  | .null => some none
  | .str s => some (some s)
  | _ => none

def strMapToJson (l : List (String × String)) : Json :=
  .obj (l.map (fun p => (p.1, Json.str p.2)))

def strMapEntryFromJson? (p : String × Json) : Option (String × String) :=
  match p.2 with
  | .str v => some (p.1, v)
  | _ => none

def strMapFromJson? : Json → Option (List (String × String))
  | .obj fields => fields.mapM strMapEntryFromJson?
  | _ => none

/-- Serialisation of one `Message`, fields in pydantic declaration order. -/
def Message.toJson (m : Message) : Json :=
  .obj [("id", .str m.id), ("content", .str m.content), ("role", .str m.role.toStr),
        ("timestamp", .num m.timestamp), ("metadata", strMapToJson m.metadata),
        ("session_id", optStrToJson m.sessionId)]

def Message.fromJson? : Json → Option Message
  | .obj [("id", Json.str i), ("content", Json.str c), ("role", Json.str r),
          ("timestamp", Json.num t), ("metadata", mj), ("session_id", sj)] =>
    match Role.fromStr? r, strMapFromJson? mj, optStrFromJson? sj with
    | some role, some md, some sid =>
      some { id := i, content := c, role := role, timestamp := t,
             metadata := md, sessionId := sid }
    | _, _, _ => none
  | _ => none

/-- `conversation.model_dump_json()` (used by `MemoryService.export_conversation`,
backend/app/services/memory_service.py line 181), modelled structurally. -/
def Conversation.model_dump_json (c : Conversation) : Json :=
  .obj [("session_id", .str c.sessionId), ("messages", .arr (c.messages.map Message.toJson)),
        ("created_at", .num c.createdAt), ("updated_at", .num c.updatedAt),
        ("metadata", strMapToJson c.metadata), ("title", optStrToJson c.title)]

/-- `Conversation.parse_raw` (pydantic), modelled as the inverse structural
decoder of `Conversation.model_dump_json`. -/
def Conversation.parse_raw : Json → Option Conversation
  | .obj [("session_id", Json.str sid), ("messages", Json.arr msgs),
          ("created_at", Json.num ca), ("updated_at", Json.num ua),
          ("metadata", mj), ("title", tj)] =>
    match msgs.mapM Message.fromJson?, strMapFromJson? mj, optStrFromJson? tj with
    | some ms, some md, some t =>
      some { sessionId := sid, messages := ms, createdAt := ca, updatedAt := ua,
             metadata := md, title := t }
    | _, _, _ => none
  | _ => none

def Role.upper : Role → String
  | .user => "USER"
  | .assistant => "ASSISTANT"
  | .system => "SYSTEM"

def Role.titleCase : Role → String
  | .user => "User"
  | .assistant => "Assistant"
  | .system => "System"

/-- The `role_emoji` choice of `_export_as_markdown`
(backend/app/services/memory_service.py line 217). -/
def roleEmoji (r : Role) : String :=
  if r = Role.user then "🧑" else "🤖"

/-- `MemoryService._export_as_text` (backend/app/services/memory_service.py
lines 189-203); `strftime` on the Nat-modelled timestamp is `toString`. -/
def MemoryService.export_as_text (c : Conversation) : String :=
  String.intercalate "\n"
    ([s!"Conversation: {c.sessionId}", s!"Created: {c.createdAt}",
      s!"Messages: {c.messages.length}",
      String.mk (List.replicate 50 '-')] ++
     c.messages.map (fun m => s!"[{m.timestamp}] {m.role.upper}: {m.content}"))

/-- `MemoryService._export_as_markdown` (backend/app/services/memory_service.py
lines 205-222). -/
def MemoryService.export_as_markdown (c : Conversation) : String :=
  String.intercalate "\n"
    ([s!"# Conversation {c.sessionId}", s!"**Created:** {c.createdAt}",
      s!"**Messages:** {c.messages.length}", ""] ++
     (c.messages.map (fun m =>
        [s!"## {roleEmoji m.role} {m.role.titleCase} - {m.timestamp}",
         s!"{m.content}", ""])).flatten)

inductive ExportData where
  | jsonData (j : Json)
  | textData (s : String)
  | markdownData (s : String)

/-- `MemoryService.export_conversation`
(backend/app/services/memory_service.py lines 169-187): a missing conversation
returns `None` before the format dispatch; an unsupported format raises
`ValueError` (modelled as `Except.error`). -/
def MemoryService.export_conversation (store : Store) (sid : String)
    (format : String) : Except Unit (Option ExportData) :=
  match store.load sid with
  | none => .ok none
  | some c =>
    if format = "json" then .ok (some (.jsonData c.model_dump_json))
    else if format = "txt" then .ok (some (.textData (MemoryService.export_as_text c)))
    else if format = "markdown" then .ok (some (.markdownData (MemoryService.export_as_markdown c)))
    else .error ()

/-- A document returned by `VectorMemoryService.query`
(backend/app/services/vector_memory_service.py lines 63-82).  Only the
`document` text is consumed by the orchestrator
(`_get_rag_context_and_modify_messages`); the accompanying metadata and float
distance are never read by the code under verification and are omitted. -/
structure RDoc where
  document : String
deriving DecidableEq, Repr

/-- `PromptManager._load_default_prompts().response_templates.error_messages`
(backend/app/utils/prompts.py lines 58-60): the default list used when no
prompts file is present. -/
def PromptManager.error_messages : List String :=
  ["Извините, произошла ошибка. Попробуйте переформулировать ваш вопрос."]

/-- `PromptManager.get_error_message` (backend/app/utils/prompts.py lines 88-95):
`random.choice` over the configured error messages, modelled by an explicit
choice index. -/
def PromptManager.get_error_message (k : Nat) : String :=
  PromptManager.error_messages.getD (k % PromptManager.error_messages.length)
    "Sorry, something went wrong. Please try again."

/-- The `"\n\nRelevant information from memory:\n" + "\n".join(...)` note built
in `AIService._get_rag_context_and_modify_messages`
(backend/app/services/ai_service.py line 165). -/
def ragNoteText (docs : List RDoc) : String :=
  "\n\nRelevant information from memory:\n" ++
    String.intercalate "\n" (docs.map (fun d => d.document))

/-- `Message(content=rag_context, role="system", session_id="rag_context")`
(backend/app/services/ai_service.py line 174); id and timestamp take their
pydantic defaults, modelled as fixed fresh values. -/
def ragMessage (content : String) : Message :=
  { id := "rag-note", content := content, role := .system, timestamp := 0,
    metadata := [], sessionId := some "rag_context" }

/-- The context modification of `AIService._get_rag_context_and_modify_messages`
(backend/app/services/ai_service.py lines 162-175): build `rag_context` (empty
when no document was retrieved), and if it is non-empty either append it to the
content of a leading system message or insert a fresh leading system message. -/
def AIService.modify_messages (docs : List RDoc) (context : List Message) :
    List Message :=
  let ragContext := if docs.isEmpty then "" else ragNoteText docs
  if ragContext = "" then context
  else
    match context with
    | first :: rest =>
      if first.role = .system then
        { first with content := first.content ++ ragContext } :: rest
      else ragMessage ragContext :: first :: rest
    | [] => [ragMessage ragContext]

/-- Exceptions that can occur inside the `try` of `AIService.generate_response`,
paired (in `GenAttempt`) with whether the provider's `generate_response` had
already been invoked when the exception was raised. -/
inductive PyErr where
  | providerInitError
  | queryError
  | nameError
  | providerError
deriving DecidableEq, Repr

/-- The logging call `logger.info(..., rag_enabled=bool(rag_context))`
(backend/app/services/ai_service.py line 101): `rag_context` is a local of
`_get_rag_context_and_modify_messages` and is bound neither in
`generate_response` nor at module scope, so evaluating this argument raises
`NameError` unconditionally. -/
def AIService.log_request : Except PyErr Unit := .error .nameError

/-- Body of the `try` block of `AIService.generate_response`
(backend/app/services/ai_service.py lines 82-108).  `providerInit` is the
outcome of `self.get_provider(...)`, `queryResult` the outcome of
`self.vector_memory_service.query(...)` (which re-raises on failure,
backend/app/services/vector_memory_service.py line 82), and `provider` the
active provider's own `generate_response`.  On success the returned Bool
records that the provider was invoked; on error it records whether the
provider had been invoked before the exception. -/
def AIService.generate_attempt (queryResult : Except Unit (List RDoc))
    (providerInit : Except Unit Unit)
    (provider : String → List Message → Except Unit String)
    (message : String) (context : List Message) :
    Except (PyErr × Bool) (String × Bool) :=
  match providerInit with
  | .error _ => .error (.providerInitError, false)
  | .ok _ =>
    match queryResult with
    | .error _ => .error (.queryError, false)
    | .ok docs =>
      let modifiedContext := AIService.modify_messages docs context
      match AIService.log_request with
      | .error e => .error (e, false)
      | .ok _ =>
        match provider message modifiedContext with
        | .error _ => .error (.providerError, true)
        | .ok response => .ok (response, true)

/-- Observable outcome of `AIService.generate_response`: the returned string and
whether the active provider's `generate_response` was invoked. -/
structure GenOut where
  response : String
  providerCalled : Bool
deriving DecidableEq, Repr

/-- `AIService.generate_response` (backend/app/services/ai_service.py lines
70-120): the catch-all `except Exception` turns any failure of the body into
the fallback text `self._get_fallback_response()` =
`prompt_manager.get_error_message()`, passed here as `fallback`.  The function
never raises to its caller. -/
def AIService.generate_response (queryResult : Except Unit (List RDoc))
    (providerInit : Except Unit Unit)
    (provider : String → List Message → Except Unit String)
    (message : String) (context : List Message) (fallback : String) : GenOut :=
  match AIService.generate_attempt queryResult providerInit provider message context with
  | .ok (response, called) => { response := response, providerCalled := called }
  | .error (_, called) => { response := fallback, providerCalled := called }

/-- A definition following the specification's words, for comparison with
`AIService.modify_messages` (spec section 4.3): the synthesized system-role note
`"Relevant information from memory:\n" + joined documents` is prepended as a
message ahead of the existing system message, or becomes the new leading system
message when none exists. -/
def specPrependNote (docs : List RDoc) (context : List Message) : List Message :=
  if docs.isEmpty then context
  else
    ragMessage ("Relevant information from memory:\n" ++
        String.intercalate "\n" (docs.map (fun d => d.document))) :: context

/-- Error outcomes of `MessageHandlerService.process_message`
(backend/app/services/message_handler_service.py): `emptyMessage` is the
`ChatBotException(code="EMPTY_MESSAGE")`, `aiService` the re-raised
`AIServiceException`, and `memoryService` the `MemoryServiceException` of the
two storage handlers — which, composed with the real `MemoryService.add_message`
(whose body catches every exception and returns `False`), can never fire. -/
inductive PMErr where
  | emptyMessage
  | memoryService
  | aiService
deriving DecidableEq, Repr

/-- The response dict built at the end of `process_message`
(backend/app/services/message_handler_service.py lines 76-81). -/
structure PMResult where
  message : String
  messageId : String
  sessionId : String
  role : Role
deriving DecidableEq, Repr

/-- Python whitespace class used by `str.strip()`. -/
def isPyWhitespace (c : Char) : Bool :=
  c == ' ' || c == '\t' || c == '\n' || c == '\r' || c == '\x0b' || c == '\x0c'

/-- Python `s.strip()`: remove leading and trailing whitespace. -/
def pyStrip (s : String) : String :=
  String.mk (((s.data.dropWhile isPyWhitespace).reverse.dropWhile isPyWhitespace).reverse)

/-- `if not session_id: session_id = str(uuid.uuid4())`
(backend/app/services/message_handler_service.py lines 32-33); note that the
empty string is falsy, so it is also replaced by a fresh uuid. -/
def resolve_session (sessionId : Option String) (freshSid : String) : String :=
  match sessionId with
  | none => freshSid
  | some s => if s = "" then freshSid else s

/-- `MessageHandlerService.process_message`
(backend/app/services/message_handler_service.py lines 28-81).

* `userSaveOk` / `aiSaveOk` model whether the storage backend write succeeds for
  the user-message and assistant-message append respectively; the Boolean that
  `MemoryService.add_message` returns is ignored, exactly as in the source
  (lines 37 and 60 discard the return value).  The surrounding
  `try/except ... raise MemoryServiceException` blocks are unreachable for the
  real `MemoryService`, whose `add_message` never raises, so no
  `PMErr.memoryService` outcome appears below.
* `generate` is the injected `ai_service.generate_response` call; an exception
  from it is converted to `AIServiceException` (line 51).
* The two background steps (vector-memory population, research trigger) only
  log on failure and do not affect the returned value or the store.
* `freshSid` / `freshMsgId` model the generated uuids, `now` the clock. -/
def MessageHandlerService.process_message (maxHistory : Nat)
    (userSaveOk aiSaveOk : Bool)
    (generate : String → List Message → Except Unit String)
    (freshSid freshMsgId : String) (now : Nat)
    (store : Store) (sessionId : Option String) (m : Message) :
    Except PMErr (PMResult × Store) :=
  if pyStrip m.content = "" then .error .emptyMessage
  else
    let sid := resolve_session sessionId freshSid
    let m1 := { m with sessionId := some sid }
    let store1 := (MemoryService.add_message maxHistory userSaveOk store sid m1 now).1
    let context := MemoryService.get_conversation_history store1 sid 10 0
    match generate m1.content (pySlice context 0 (-1)) with
    | .error _ => .error .aiService
    | .ok aiResponse =>
      let aiMsg : Message := { id := freshMsgId, content := aiResponse, role := .assistant,
                               timestamp := now, metadata := [], sessionId := some sid }
      let store2 := (MemoryService.add_message maxHistory aiSaveOk store1 sid aiMsg now).1
      .ok ({ message := aiResponse, messageId := freshMsgId, sessionId := sid,
             role := .assistant }, store2)

/-- The provider of the C8 scenario: `generate_response` raises on every call. -/
def raisingProvider : String → List Message → Except Unit String :=
  fun _ _ => .error ()

/-- The composite `ai_service.generate_response` call as `process_message` sees
it: `AIService.generate_response` never raises, so the injected function always
returns `Except.ok` with the string `AIService.generate_response` produced. -/
def aiGenerate (queryResult : Except Unit (List RDoc))
    (provider : String → List Message → Except Unit String) (fallback : String) :
    String → List Message → Except Unit String :=
  fun message context =>
    .ok (AIService.generate_response queryResult (.ok ()) provider message context fallback).response

/-- Result model of `GET /history/{session_id}` (`ChatHistory`,
backend/app/models/chat.py). -/
structure HistoryPage where
  messages : List Message
  totalMessages : Nat
  hasMore : Bool
deriving DecidableEq, Repr

/-- `get_chat_history` (backend/app/api/routes/chat.py lines 81-137): validate
`page ≥ 1` and `1 ≤ page_size ≤ 100`, fetch `page_size + 1` messages at offset
`(page-1)*page_size`, report `has_more` when more than `page_size` came back and
trim to the first `page_size` of them.  The `HTTPException(400)` raised by the
validations inside the `try` is swallowed by the route's own
`except Exception` and resurfaces as a 500, modelled as `Except.error 500`. -/
def ChatRoutes.get_chat_history (store : Store) (sid : String)
    (page pageSize : Nat) : Except Nat HistoryPage :=
  if page < 1 then .error 500
  else if pageSize < 1 ∨ 100 < pageSize then .error 500
  else
    let offset := (page - 1) * pageSize
    let msgs := MemoryService.get_conversation_history store sid (pageSize + 1) offset
    let hasMore := decide (pageSize < msgs.length)
    let shown := if hasMore then msgs.take pageSize else msgs
    let total := match store.load sid with
                 | some c => c.messages.length
                 | none => 0
    .ok { messages := shown, totalMessages := total, hasMore := hasMore }

/-- The client loop of the pagination invariant: request page 1, 2, ... and
concatenate the returned message lists until `has_more` is false (fuel bounds
the recursion; a route error ends the loop). -/
def ChatRoutes.collect_pages (store : Store) (sid : String) (pageSize : Nat) :
    Nat → Nat → List Message
  | 0, _ => []
  | fuel + 1, page =>
    match ChatRoutes.get_chat_history store sid page pageSize with
    | .error _ => []
    | .ok hp =>
      hp.messages ++ (if hp.hasMore then ChatRoutes.collect_pages store sid pageSize fuel (page + 1) else [])

/-- HTTP outcome of `DELETE /conversation/{session_id}`. -/
inductive HttpOut where
  | ok200 (msg : String)
  | notFound404
  | serverError500
deriving DecidableEq, Repr

/-- `delete_conversation` route (backend/app/api/routes/chat.py lines 180-203):
on `success` it returns the success payload; on `not success` it raises
`HTTPException(404, "Conversation not found")` — which, raised inside the
`try`, is caught by the route's own `except Exception` handler (line 201, the
route has no `except HTTPException: raise` guard) and turned into a 500. -/
def ChatRoutes.delete_conversation (backendOk : Bool) (store : Store)
    (sid : String) : Store × HttpOut :=
  let r := MemoryService.delete_conversation backendOk store sid
  if r.2 then (r.1, .ok200 "Conversation deleted successfully")
  else (r.1, .serverError500)

/-- Repeated `MemoryService.add_message` calls for one session with succeeding
backend writes: the sequence of appends of the retention property. -/
def MemoryService.append_messages (maxHistory : Nat) (sid : String) (now : Nat) :
    Store → List Message → Store
  | store, [] => store
  | store, m :: ms =>
    MemoryService.append_messages maxHistory sid now
      (MemoryService.add_message maxHistory true store sid m now).1 ms

/-- Concrete sample messages for witnesses and counterexamples. -/
def msgA : Message :=
  { id := "a1", content := "first", role := .user, timestamp := 1, metadata := [], sessionId := none }

def msgB : Message :=
  { id := "b2", content := "second", role := .assistant, timestamp := 2, metadata := [], sessionId := none }

def msgC : Message :=
  { id := "c3", content := "third", role := .user, timestamp := 3, metadata := [], sessionId := none }

def msgHello : Message :=
  { id := "u1", content := "Hello", role := .user, timestamp := 0, metadata := [], sessionId := none }

/-- A stored two-message conversation used by the pagination and delete claims. -/
def demoConv : Conversation :=
  { sessionId := "s1", messages := [{ msgA with sessionId := some "s1" },
                                    { msgB with sessionId := some "s1" }],
    createdAt := 0, updatedAt := 2, metadata := [], title := none }

def demoStore : Store := [("s1", demoConv)]

/-- The last `n` elements of a list (all of it when it is shorter): the
specification's "the `n` newest entries, oldest-first". -/
def lastN (n : Nat) (l : List α) : List α := l.drop (l.length - n)

/-- The store produced by `process_message` on an empty store when the backend
write of the user message fails and the assistant write succeeds: only the
assistant message was persisted. -/
def storeAfterUserSaveFailure : Store :=
  [("s1", { sessionId := "s1",
            messages := [{ id := "aid", content := "REPLY", role := .assistant,
                           timestamp := 0, metadata := [], sessionId := some "s1" }],
            createdAt := 0, updatedAt := 0, metadata := [], title := none })]

/-! Helper lemmas -/

theorem generate_response_fallback (queryResult : Except Unit (List RDoc))
    (providerInit : Except Unit Unit)
    (provider : String → List Message → Except Unit String)
    (message : String) (context : List Message) (fallback : String) :
    AIService.generate_response queryResult providerInit provider message context fallback
      = { response := fallback, providerCalled := false } := by
  cases providerInit <;> cases queryResult <;> rfl

theorem Store.load_filter_ne (s : Store) (key sid : String) (h : key ≠ sid) :
    Store.load (s.filter (fun p => p.1 ≠ key)) sid = s.load sid := by
  induction s with
  | nil => rfl
  | cons hd tl ih =>
    obtain ⟨k, c⟩ := hd
    by_cases hk : k = key
    · subst hk
      simp only [decide_not] at ih
      simp [List.filter_cons, Store.load, ih, h]
    · simp only [decide_not] at ih
      simp [List.filter_cons, hk, Store.load, ih]

theorem Store.load_save (s : Store) (c : Conversation) (sid : String) :
    (s.save c).load sid = if c.sessionId = sid then some c else s.load sid := by
  rw [Store.save, Store.load]
  by_cases h : c.sessionId = sid
  · rw [if_pos h, if_pos h]
  · rw [if_neg h, if_neg h, Store.load_filter_ne _ _ _ h]

theorem ragNoteText_ne_empty (docs : List RDoc) : ragNoteText docs ≠ "" := by
  intro h
  have h2 := congrArg String.data h
  rw [ragNoteText, String.congr_append] at h2
  simp only [String.data] at h2
  have h3 := List.append_eq_nil.mp h2
  exact absurd h3.1 (by decide)

theorem pySliceIdx_neg (len n : Nat) (hn : 1 ≤ n) :
    pySliceIdx len (-(n : Int)) = len - n := by
  simp only [pySliceIdx]
  split_ifs <;> omega

theorem pyTailSlice_pos (l : List α) (n : Nat) (hn : 1 ≤ n) :
    pyTailSlice l n = lastN n l := by
  rw [pyTailSlice, pySliceIdx_neg _ _ hn, lastN]

theorem trim_step_lastN {n : Nat} (hn : 1 ≤ n) (l : List α) :
    (if l.length > n then pyTailSlice l n else l) = lastN n l := by
  split_ifs with h
  · exact pyTailSlice_pos l n hn
  · rw [lastN]
    have h0 : l.length - n = 0 := by omega
    rw [h0, List.drop_zero]

theorem lastN_append_lastN {n : Nat} (hn : 1 ≤ n) (l : List α) (x : α) :
    lastN n (lastN n l ++ [x]) = lastN n (l ++ [x]) := by
  by_cases hk : l.length ≤ n
  · have hin : lastN n l = l := by
      rw [lastN]
      have h0 : l.length - n = 0 := by omega
      rw [h0, List.drop_zero]
    rw [hin]
  · simp only [lastN, List.length_append, List.length_drop, List.length_singleton]
    have hlen : l.length - (l.length - n) = n := by omega
    rw [hlen]
    have h1 : n + 1 - n = 1 := by omega
    rw [h1, List.drop_append_eq_append_drop, List.drop_drop,
        List.drop_append_eq_append_drop]
    have h2 : l.length - n + 1 = l.length + 1 - n := by omega
    have h3 : 1 - (l.drop (l.length - n)).length = 0 := by
      rw [List.length_drop]; omega
    have h4 : l.length + 1 - n - l.length = 0 := by omega
    rw [h2, h3, h4]

theorem Role.fromStr_toStr (r : Role) : Role.fromStr? r.toStr = some r := by
  cases r <;> rfl

theorem optStr_roundtrip (o : Option String) :
    optStrFromJson? (optStrToJson o) = some o := by
  cases o <;> rfl

theorem strMap_roundtrip (l : List (String × String)) :
    strMapFromJson? (strMapToJson l) = some l := by
  induction l with
  | nil => rfl
  | cons hd tl ih =>
    simp only [strMapToJson, strMapFromJson?, List.map_cons, List.mapM_cons] at ih ⊢
    rw [ih]
    rfl

theorem Message.fromJson_toJson (m : Message) :
    Message.fromJson? m.toJson = some m := by
  obtain ⟨i, c, r, t, md, sid⟩ := m
  simp only [Message.toJson, Message.fromJson?]
  rw [Role.fromStr_toStr, strMap_roundtrip, optStr_roundtrip]

theorem messages_roundtrip (ms : List Message) :
    (ms.map Message.toJson).mapM Message.fromJson? = some ms := by
  induction ms with
  | nil => rfl
  | cons hd tl ih =>
    simp only [List.map_cons, List.mapM_cons, Message.fromJson_toJson, ih]
    rfl

theorem Conversation.parse_raw_dump (c : Conversation) :
    Conversation.parse_raw c.model_dump_json = some c := by
  obtain ⟨sid, ms, ca, ua, md, t⟩ := c
  simp only [Conversation.model_dump_json, Conversation.parse_raw]
  rw [messages_roundtrip, strMap_roundtrip, optStr_roundtrip]

theorem load_add_message {N : Nat} (hN : 1 ≤ N) {store : Store} {sid : String}
    {c : Conversation} (m : Message) (now : Nat)
    (h : store.load sid = some c) (hsid : c.sessionId = sid) :
    ((MemoryService.add_message N true store sid m now).1).load sid =
      some { c with
             messages := lastN N (c.messages ++ [{ m with sessionId := some sid }]),
             updatedAt := now } := by
  have hconv : (if (c.add_message m now).messages.length > N
        then { c.add_message m now with
               messages := pyTailSlice (c.add_message m now).messages N }
        else c.add_message m now)
      = { c with
          messages := lastN N (c.messages ++ [{ m with sessionId := some sid }]),
          updatedAt := now } := by
    rw [Conversation.add_message, hsid]
    by_cases hlen : (c.messages ++ [{ m with sessionId := some sid }]).length > N
    · rw [if_pos hlen, pyTailSlice_pos _ _ hN]
    · rw [if_neg hlen]
      have hid : lastN N (c.messages ++ [{ m with sessionId := some sid }])
          = c.messages ++ [{ m with sessionId := some sid }] := by
        rw [lastN]
        have h0 : (c.messages ++ [{ m with sessionId := some sid }]).length - N = 0 := by
          omega
        rw [h0, List.drop_zero]
      rw [hid]
  simp only [MemoryService.add_message, h, Option.getD_some]
  rw [hconv]
  rw [if_pos trivial, Store.load_save]
  simp [hsid]

theorem load_add_message_new {N : Nat} (hN : 1 ≤ N) {store : Store} {sid : String}
    (m : Message) (now : Nat) (h : store.load sid = none) :
    ((MemoryService.add_message N true store sid m now).1).load sid
      = some { sessionId := sid, messages := [{ m with sessionId := some sid }],
               createdAt := now, updatedAt := now, metadata := [], title := none } := by
  have hlen : ¬ ((newConversation sid now).add_message m now).messages.length > N := by
    simp [newConversation, Conversation.add_message]
    omega
  have hred : (MemoryService.add_message N true store sid m now).1
      = Store.save store ((newConversation sid now).add_message m now) := by
    simp only [MemoryService.add_message, h, Option.getD_none]
    rw [if_neg hlen]
    rw [if_pos trivial]
  rw [hred, Store.load_save]
  simp [newConversation, Conversation.add_message]

theorem append_messages_load {N : Nat} (hN : 1 ≤ N) (sid : String) (now : Nat) :
    ∀ (ms : List Message) (store : Store) (c : Conversation) (l : List Message),
      store.load sid = some c → c.sessionId = sid → c.messages = lastN N l →
      ((MemoryService.append_messages N sid now store ms).load sid).map
          (fun x => x.messages)
        = some (lastN N (l ++ ms.map (fun m => { m with sessionId := some sid }))) := by
  intro ms
  induction ms with
  | nil =>
    intro store c l h hsid hmsg
    simp [MemoryService.append_messages, h, hmsg]
  | cons m rest ih =>
    intro store c l h hsid hmsg
    rw [MemoryService.append_messages]
    have hload := load_add_message hN m now h hsid
    have hstep : lastN N (c.messages ++ [{ m with sessionId := some sid }])
        = lastN N (l ++ [{ m with sessionId := some sid }]) := by
      rw [hmsg, lastN_append_lastN hN]
    rw [hstep] at hload
    have := ih _ _ _ hload hsid rfl
    rw [this]
    simp

/-! Claim theorems -/

/-- Claim C3: for every input message, every context, and every provider
behavior, `AIService.generate_response` returns the configured fallback error
text (`PromptManager.get_error_message()`) and the active provider's
`generate_response` is never invoked: the logging call after retrieval
references `rag_context`, unbound in `generate_response`'s scope, so every call
that gets past retrieval raises `NameError` and the catch-all converts it to
the fallback string. -/
theorem C3_generate_response_always_fallback (queryResult : Except Unit (List RDoc))
    (providerInit : Except Unit Unit)
    (provider : String → List Message → Except Unit String)
    (message : String) (context : List Message) (k : Nat) :
    AIService.generate_response queryResult providerInit provider message context
        (PromptManager.get_error_message k)
      = { response := PromptManager.get_error_message k, providerCalled := false } :=
  generate_response_fallback queryResult providerInit provider message context _

/-- Claim C4, counterexample: with the retrieval query raising and a provider
that would answer "NORMAL", the provider is not called and no normal response
is produced — the caller gets the fallback text instead, contradicting the
claim that "the provider's generate is still called with the unaugmented
context and a normal response is produced". -/
theorem C4_counterexample_provider_not_called :
    ¬ ((AIService.generate_response (Except.error ()) (Except.ok ())
          (fun _ _ => Except.ok "NORMAL") "hi" [] (PromptManager.get_error_message 0)).providerCalled
          = true
       ∧ (AIService.generate_response (Except.error ()) (Except.ok ())
          (fun _ _ => Except.ok "NORMAL") "hi" [] (PromptManager.get_error_message 0)).response
          = "NORMAL") := by
  decide

/-- Claim C4 as amended: a retrieval failure is never fatal to the request —
`generate_response` returns normally — but the pipeline does not degrade to
unaugmented generation: the catch-all converts the retrieval error into the
configured fallback text and the provider's generate is not invoked. -/
theorem C4_retrieval_error_nonfatal_fallback (e : Unit)
    (providerInit : Except Unit Unit)
    (provider : String → List Message → Except Unit String)
    (message : String) (context : List Message) (k : Nat) :
    AIService.generate_response (Except.error e) providerInit provider message context
        (PromptManager.get_error_message k)
      = { response := PromptManager.get_error_message k, providerCalled := false } :=
  generate_response_fallback (Except.error e) providerInit provider message context _

/-- Claim C9, counterexample: with one retrieved document and a context whose
(only) message is a system message, the code does not prepend the note ahead of
the existing system message (as the claim states); it appends the note text,
with a leading blank line, to the content of that system message. -/
theorem C9_counterexample_note_not_prepended :
    AIService.modify_messages [{ document := "d" }] [ragMessage "S"]
      ≠ specPrependNote [{ document := "d" }] [ragMessage "S"] := by
  decide

/-- Claim C9 as amended: whenever the retrieval query returns documents, the
note text `"\n\nRelevant information from memory:\n" + joined documents` (note
the leading blank line) is appended to the end of the content of the leading
system message when the context starts with one, and otherwise a fresh leading
system message holding exactly the note is inserted; all other messages are
unchanged. -/
theorem C9_note_merged_into_context (docs : List RDoc) (context : List Message)
    (h : docs ≠ []) :
    AIService.modify_messages docs context =
      (match context with
       | first :: rest =>
         if first.role = .system
         then { first with content := first.content ++ ragNoteText docs } :: rest
         else ragMessage (ragNoteText docs) :: first :: rest
       | [] => [ragMessage (ragNoteText docs)]) := by
  have hde : docs.isEmpty = false := by
    cases docs with
    | nil => exact absurd rfl h
    | cons a l => rfl
  have hne := ragNoteText_ne_empty docs
  simp only [AIService.modify_messages, hde, Bool.false_eq_true, if_false]
  rw [if_neg hne]

/-- Witness for the amended C9 claim at a concrete input. -/
theorem C9_note_merged_into_context_witness :
    AIService.modify_messages [{ document := "d" }] []
      = [ragMessage (ragNoteText [{ document := "d" }])] :=
  C9_note_merged_into_context [{ document := "d" }] [] (by decide)

/-- Claim C2, evaluated at its failing input (code bug): with the backend write
of the user message failing, `MemoryService.add_message` swallows the error and
returns `False`, which `process_message` ignores — the pipeline does not abort
with a `MemoryServiceError`; it fetches context, generates, appends the
assistant message and returns the reply, leaving a store that holds the
assistant message but not the user message. -/
theorem C2_user_store_failure_pipeline_continues :
    MessageHandlerService.process_message 50 false true (fun _ _ => Except.ok "REPLY")
        "fresh" "aid" 0 [] (some "s1") msgHello
      = Except.ok ({ message := "REPLY", messageId := "aid", sessionId := "s1",
                     role := .assistant }, storeAfterUserSaveFailure)
    ∧ (storeAfterUserSaveFailure.load "s1").map (fun c => c.messages.map (fun x => x.role))
      = some [Role.assistant]
    ∧ (storeAfterUserSaveFailure.load "s1").map (fun c => c.messages.map (fun x => x.content))
      = some ["REPLY"] :=
  ⟨by rfl, by rfl, by rfl⟩

/-- Claim C5, evaluated at its failing input (code bug): for a two-message log
and `page_size = 1`, page 1 trims the overfetched `page_size + 1` newest
messages from the wrong end, so paging until `has_more` is false yields the
oldest message twice and never yields the newest message — violating the
"every message exactly once" invariant. -/
theorem C5_pagination_skips_and_duplicates :
    ChatRoutes.collect_pages demoStore "s1" 1 5 1
        = [{ msgA with sessionId := some "s1" }, { msgA with sessionId := some "s1" }]
    ∧ (demoStore.load "s1").map (fun c => c.messages)
        = some [{ msgA with sessionId := some "s1" }, { msgB with sessionId := some "s1" }]
    ∧ ¬ ({ msgB with sessionId := some "s1" } ∈ ChatRoutes.collect_pages demoStore "s1" 1 5 1) := by
  decide

/-- Claim C7, evaluated at its failing input (code bug): deleting an absent
session returns the success payload, not 404 — `MemoryService.delete_conversation`
returns `True` whenever the backend did not raise, and the JSON backend's delete
of a missing file is a silent no-op.  Deleting twice is indeed safe, but the
second delete also reports success rather than "not found". -/
theorem C7_delete_absent_returns_success :
    ChatRoutes.delete_conversation true ([] : Store) "missing"
        = (([] : Store), HttpOut.ok200 "Conversation deleted successfully")
    ∧ ChatRoutes.delete_conversation true demoStore "s1"
        = (([] : Store), HttpOut.ok200 "Conversation deleted successfully")
    ∧ ChatRoutes.delete_conversation true
          (ChatRoutes.delete_conversation true demoStore "s1").1 "s1"
        = (([] : Store), HttpOut.ok200 "Conversation deleted successfully") := by
  decide

/-- Claim C6, counterexample: with the configured retention limit `N = 0`
(`max_history_messages` is an unconstrained int), one append leaves one stored
message, not `min 1 0 = 0`: the Python trim `messages[-0:]` is the whole list,
so `N = 0` keeps every message. -/
theorem C6_counterexample_zero_retention :
    ((MemoryService.append_messages 0 "s" 0 [] [msgA]).load "s").map
        (fun c => c.messages.length) = some 1
    ∧ ¬ ((MemoryService.append_messages 0 "s" 0 [] [msgA]).load "s").map
        (fun c => c.messages.length) = some (min 1 0) := by
  decide

/-- Claim C6 as amended: for every retention limit `N ≥ 1`, after any
non-empty sequence of `add_message` calls (with succeeding backend writes) the
stored log is exactly the `min(number appended, N)` newest messages in
oldest-first order. -/
theorem C6_retention_newest_kept (N : Nat) (hN : 1 ≤ N) (sid : String) (now : Nat)
    (ms : List Message) (hne : ms ≠ []) :
    ((MemoryService.append_messages N sid now [] ms).load sid).map (fun c => c.messages)
        = some (lastN N (ms.map (fun m => { m with sessionId := some sid })))
    ∧ ((MemoryService.append_messages N sid now [] ms).load sid).map
        (fun c => c.messages.length) = some (min ms.length N) := by
  cases ms with
  | nil => exact absurd rfl hne
  | cons m rest =>
    have h1 : ((MemoryService.add_message N true [] sid m now).1).load sid
        = some { sessionId := sid, messages := [{ m with sessionId := some sid }],
                 createdAt := now, updatedAt := now, metadata := [], title := none } :=
      load_add_message_new hN m now rfl
    have hsingle : lastN N [{ m with sessionId := some sid }]
        = [{ m with sessionId := some sid }] := by
      have h0 : ([{ m with sessionId := some sid }] : List Message).length - N = 0 := by
        simp
        omega
      rw [lastN, h0, List.drop_zero]
    rw [MemoryService.append_messages]
    have main := append_messages_load hN sid now rest _ _
      [{ m with sessionId := some sid }] h1 rfl hsingle.symm
    have hmain : ((MemoryService.append_messages N sid now
          (MemoryService.add_message N true [] sid m now).1 rest).load sid).map
          (fun c => c.messages)
        = some (lastN N ((m :: rest).map (fun x => { x with sessionId := some sid }))) := by
      simpa using main
    refine ⟨hmain, ?_⟩
    cases hld : (MemoryService.append_messages N sid now
        (MemoryService.add_message N true [] sid m now).1 rest).load sid with
    | none => rw [hld] at hmain; simp at hmain
    | some conv =>
      rw [hld] at hmain
      simp at hmain
      simp [hmain, lastN]
      omega

/-- Witness for the amended C6 claim: three appends with retention limit 2 keep
the two newest messages, oldest-first. -/
theorem C6_retention_newest_kept_witness :
    ((MemoryService.append_messages 2 "s" 0 [] [msgA, msgB, msgC]).load "s").map
        (fun c => c.messages)
        = some (lastN 2 ([msgA, msgB, msgC].map (fun m => { m with sessionId := some "s" })))
    ∧ ((MemoryService.append_messages 2 "s" 0 [] [msgA, msgB, msgC]).load "s").map
        (fun c => c.messages.length) = some (min [msgA, msgB, msgC].length 2) :=
  C6_retention_newest_kept 2 (by decide) "s" 0 [msgA, msgB, msgC] (by decide)

/-- Claim C10: exporting a stored conversation as json yields its serialized
form, which parses back to a conversation with the same session id and message
count; exporting an absent session yields `None`. -/
theorem C10_export_json_roundtrip (store : Store) (sid : String) :
    (∀ c, store.load sid = some c →
        MemoryService.export_conversation store sid "json"
            = Except.ok (some (ExportData.jsonData c.model_dump_json))
          ∧ ∃ c2, Conversation.parse_raw c.model_dump_json = some c2
              ∧ c2.sessionId = c.sessionId ∧ c2.messages.length = c.messages.length)
    ∧ (store.load sid = none →
        MemoryService.export_conversation store sid "json" = Except.ok none) := by
  constructor
  · intro c h
    refine ⟨?_, c, Conversation.parse_raw_dump c, rfl, rfl⟩
    simp [MemoryService.export_conversation, h]
  · intro h
    simp [MemoryService.export_conversation, h]

/-- Witness for C10 at a concrete two-message conversation. -/
theorem C10_export_json_roundtrip_witness :
    MemoryService.export_conversation demoStore "s1" "json"
        = Except.ok (some (ExportData.jsonData demoConv.model_dump_json))
      ∧ ∃ c2, Conversation.parse_raw demoConv.model_dump_json = some c2
          ∧ c2.sessionId = demoConv.sessionId
          ∧ c2.messages.length = demoConv.messages.length :=
  (C10_export_json_roundtrip demoStore "s1").1 demoConv (by rfl)

/-- Claim C1: whenever the user message has been persisted (`userSaveOk`) and a
reply text has been produced, a failing backend write of the assistant message
(`aiSaveOk = false`) does not discard the reply: `MemoryService.add_message`
logs the error internally and returns `False` instead of raising, and
`process_message` still returns the reply to the caller; the store is exactly
the one after the user append (`store1`), showing the assistant write failed. -/
theorem C1_post_gen_store_failure_reply_preserved
    (N : Nat) (g : String → List Message → Except Unit String)
    (freshSid freshMsgId : String) (now : Nat) (store : Store)
    (sess : Option String) (m : Message) (reply : String) (sid : String) (store1 : Store)
    (h1 : ¬ pyStrip m.content = "")
    (hsid : resolve_session sess freshSid = sid)
    (hstore1 : (MemoryService.add_message N true store sid
        { m with sessionId := some sid } now).1 = store1)
    (hg : g m.content
        (pySlice (MemoryService.get_conversation_history store1 sid 10 0) 0 (-1))
        = Except.ok reply) :
    MessageHandlerService.process_message N true false g freshSid freshMsgId now store sess m
      = Except.ok ({ message := reply, messageId := freshMsgId, sessionId := sid,
                     role := .assistant }, store1) := by
  subst hsid
  subst hstore1
  simp only [MessageHandlerService.process_message]
  rw [if_neg h1]
  rw [hg]
  rfl

/-- Witness for C1 at concrete inputs: user append succeeds, assistant append
fails, the reply "Hi!" is still returned. -/
theorem C1_post_gen_store_failure_reply_preserved_witness :
    MessageHandlerService.process_message 50 true false (fun _ _ => Except.ok "Hi!")
        "fresh" "aid" 0 [] (some "s1") msgHello
      = Except.ok ({ message := "Hi!", messageId := "aid", sessionId := "s1",
                     role := .assistant },
          (MemoryService.add_message 50 true [] "s1"
            { msgHello with sessionId := some "s1" } 0).1) :=
  C1_post_gen_store_failure_reply_preserved 50 (fun _ _ => Except.ok "Hi!")
    "fresh" "aid" 0 [] (some "s1") msgHello "Hi!" "s1" _
    (by decide) (by decide) rfl (by rfl)

/-- Claim C8: when the active provider raises on every generate call,
`process_message` still returns the non-empty configured fallback text as the
assistant reply, the user message is durably stored (here: a previously absent
session ends up holding the user message followed by the fallback assistant
message), and the composed `generate_response` never raises to its caller —
the result is an `Except.ok`, never the `aiService` error. -/
theorem C8_provider_failure_fallback_and_user_stored
    (N : Nat) (queryResult : Except Unit (List RDoc)) (freshSid freshMsgId : String)
    (now : Nat) (store : Store) (sid : String) (m : Message) (k : Nat)
    (h1 : ¬ pyStrip m.content = "") (h2 : ¬ sid = "")
    (h3 : store.load sid = none) (h4 : 2 ≤ N) :
    ∃ st : Store,
      MessageHandlerService.process_message N true true
          (aiGenerate queryResult raisingProvider (PromptManager.get_error_message k))
          freshSid freshMsgId now store (some sid) m
        = Except.ok ({ message := PromptManager.get_error_message k,
                       messageId := freshMsgId, sessionId := sid,
                       role := .assistant }, st)
      ∧ (st.load sid).map (fun c => c.messages.map (fun x => x.content))
          = some [m.content, PromptManager.get_error_message k]
      ∧ ¬ PromptManager.get_error_message k = "" := by
  have hfbeq : PromptManager.get_error_message k
      = "Извините, произошла ошибка. Попробуйте переформулировать ваш вопрос." := by
    simp [PromptManager.get_error_message, PromptManager.error_messages, Nat.mod_one]
  have hfb : ¬ PromptManager.get_error_message k = "" := by
    rw [hfbeq]
    decide
  have hs : resolve_session (some sid) freshSid = sid := by
    simp [resolve_session, h2]
  have hgen : ∀ msg ctx, aiGenerate queryResult raisingProvider
      (PromptManager.get_error_message k) msg ctx
      = Except.ok (PromptManager.get_error_message k) := by
    intro msg ctx
    simp only [aiGenerate]
    rw [generate_response_fallback]
  simp only [MessageHandlerService.process_message]
  rw [if_neg h1, hs, hgen]
  refine ⟨_, rfl, ?_, hfb⟩
  have hN1 : 1 ≤ N := by omega
  have hload1 := load_add_message_new hN1 { m with sessionId := some sid } now h3
  have hload2 := load_add_message hN1
    { id := freshMsgId, content := PromptManager.get_error_message k,
      role := .assistant, timestamp := now, metadata := [], sessionId := some sid }
    now hload1 rfl
  rw [hload2]
  have hlen2 : (2 : Nat) - N = 0 := Nat.sub_eq_zero_of_le h4
  simp [lastN, hlen2]

/-- Witness for C8 at concrete inputs: empty store, session "s1", message
"Hello", provider raising on every call. -/
theorem C8_provider_failure_fallback_and_user_stored_witness :
    ∃ st : Store,
      MessageHandlerService.process_message 50 true true
          (aiGenerate (Except.ok []) raisingProvider (PromptManager.get_error_message 0))
          "fresh" "aid" 0 [] (some "s1") msgHello
        = Except.ok ({ message := PromptManager.get_error_message 0,
                       messageId := "aid", sessionId := "s1",
                       role := .assistant }, st)
      ∧ (st.load "s1").map (fun c => c.messages.map (fun x => x.content))
          = some [msgHello.content, PromptManager.get_error_message 0]
      ∧ ¬ PromptManager.get_error_message 0 = "" :=
  C8_provider_failure_fallback_and_user_stored 50 (Except.ok []) "fresh" "aid" 0 []
    "s1" msgHello 0 (by decide) (by decide) rfl (by decide)

end RAGBot
